import Mathlib

/-!
Verification of the WebSocket fan-out subsystem of next-firebase-note-app.

Shallow embedding of:
* `src/infrastructure/aws-sam/websocket-handlers/broadcast.ts`
  (HTTP `handler` plus `BroadcastService` from `shared/broadcast-service`:
  `getAllConnections`, `sendToConnection`, `removeStaleConnection`,
  `broadcastToAll`),
* `src/infrastructure/aws-sam/websocket-handlers/default.ts` (inbound echo
  handler),
* the legacy serverless endpoint in `src/unnamed/part_009`
  (`broadcastToAll` message construction with `id`/`source`/`version`
  defaults, non-paginating `ScanCommand`).

Environment behaviour that the code branches on is passed in explicitly:
the DynamoDB connection table is a list of scan pages, each push gets a
per-connection transport outcome (delivered / HTTP 410 gone / transient
error), each `DeleteCommand` gets a per-connection may-throw flag, and the
scan gets an optional index of the scan call that throws.  Logging and the
10ms inter-chunk pause are not modelled (no effect on data flow).
-/

/-- JavaScript/JSON value as produced by `JSON.parse`, plus `undefined`
(the result of reading an absent property).  Numbers are modelled as
integers; the claims only exercise `0`. -/
inductive Jsv where
  | null
  | undefined
  | bool (b : Bool)
  | num (n : Int)
  | str (s : String)
  | obj (fields : List (String × Jsv))
  | arr (elems : List Jsv)

/-- JavaScript truthiness, as used by `!requestBody.type || !requestBody.data`
in the broadcast handler: `false`, `0`, `""`, `null`, `undefined` are falsy,
every object/array (including `{}`) is truthy. -/
def Jsv.truthy : Jsv → Bool
  | .null => false
  | .undefined => false
  | .bool b => b
  | .num n => n != 0
  | .str s => !s.isEmpty
  | .obj _ => true
  | .arr _ => true

/-- First-match field lookup in a parsed JSON object (`JSON.parse` output has
unique keys); an absent key reads as `undefined`. -/
def lookupField : List (String × Jsv) → String → Jsv
  | [], _ => .undefined
  | (k, v) :: rest, key => if k = key then v else lookupField rest key

/-- JavaScript property access `v.k`: throws a TypeError (modelled `none`) on
`null`/`undefined`, reads the field on objects, and yields `undefined` on
other primitives. -/
def jsField : Jsv → String → Option Jsv
  | .null, _ => none
  | .undefined, _ => none
  | .obj fs, k => some (lookupField fs k)
  | _, _ => some .undefined

/-- Outcome of one `PostToConnectionCommand` for one connection: delivered,
rejected with HTTP status 410 (the transport's confirmed-gone signal), or
rejected with any other (transient) error. -/
inductive PushOutcome where
  | delivered
  | gone
  | transient
deriving DecidableEq, Repr

/-- Environment of one broadcast invocation: the connection table split into
scan pages (`pages.flatten` is the table's full contents), the index of the
scan call that throws a storage error (`none` = healthy scan), the transport
outcome of the push to each connection id, and whether the stale-cleanup
`DeleteCommand` for a connection id throws. -/
structure Store where
  pages : List (List String)
  scanFailsAt : Option Nat
  outcome : String → PushOutcome
  deleteFails : String → Bool

/-- One iteration chain of `BroadcastService.getAllConnections`'s do/while
loop: scan call number `idx` reads the page at `idx`; a non-final page comes
back with a `LastEvaluatedKey` continuing at `idx + 1`.  Returns the
accumulated items (`none` when a scan call threw) together with the number
of `ScanCommand` calls issued. -/
def scanLoop (failAt : Option Nat) (idx : Nat) :
    List (List String) → Option (List String) × Nat
  | [] => (if failAt = some idx then none else some [], 1)
  | [p] => (if failAt = some idx then none else some p, 1)
  | p :: q :: rest =>
    if failAt = some idx then (none, 1)
    else
      let r := scanLoop failAt (idx + 1) (q :: rest)
      ((r.1).map (fun tail => p ++ tail), r.2 + 1)

/-- `BroadcastService.getAllConnections`: page through the whole table,
starting with no `ExclusiveStartKey` (page 0). -/
def getAllConnections (st : Store) : Option (List String) × Nat :=
  scanLoop st.scanFailsAt 0 st.pages

/-- Result of `BroadcastService.sendToConnection`: the fulfilled boolean,
the directory contents afterwards, and the trace of `DeleteCommand`
attempts as pairs (connection id, the delete threw). -/
structure SendResult where
  ok : Bool
  dir : List String
  deleteOutcomes : List (String × Bool)

/-- `BroadcastService.removeStaleConnection`: issue a `DeleteCommand` for the
key; a storage error from the delete is caught and only logged (the
directory keeps the record), so the method itself never throws. -/
def removeStaleConnection (df : String → Bool) (dir : List String)
    (cid : String) : List String × List (String × Bool) :=
  if df cid then (dir, [(cid, true)])
  else (dir.filter (fun x => x ≠ cid), [(cid, false)])

/-- `BroadcastService.sendToConnection`: push to the connection; on an HTTP
410 rejection remove the stale record and fulfill with `false`; on any other
rejection log and fulfill with `false`; on success fulfill with `true`.
Every error is caught internally, so the promise always fulfills. -/
def sendToConnection (oc : String → PushOutcome) (df : String → Bool)
    (dir : List String) (cid : String) : SendResult :=
  match oc cid with
  | .delivered => ⟨true, dir, []⟩
  | .gone =>
    let r := removeStaleConnection df dir cid
    ⟨false, r.1, r.2⟩
  | .transient => ⟨false, dir, []⟩

/-- The chunk slicing of `broadcastToAll`'s for-loop, fuelled for structural
recursion: each iteration takes `connections.slice(i, i + 50)` and advances
by 50, so the iteration count is bounded by the list length, which
`chunksOf` passes as fuel. -/
def chunksOfAux : Nat → List String → List (List String)
  | 0, _ => []
  | _, [] => []
  | fuel + 1, x :: xs => (x :: xs).take 50 :: chunksOfAux fuel ((x :: xs).drop 50)

def chunksOf (xs : List String) : List (List String) :=
  chunksOfAux xs.length xs

/-- Effects of `Promise.allSettled(chunk.map(... sendToConnection ...))` for
one chunk: the settled results (`some b` = fulfilled with `b`, `none` =
rejected — `sendToConnection` never rejects, so only `some` is produced),
the directory afterwards, the pushes attempted, and the delete trace.
The sends of a chunk run concurrently, but each one only deletes its own
key and never reads the directory, so sequential threading is an exact
model. -/
structure ChunkResult where
  settled : List (Option Bool)
  dir : List String
  attempts : List String
  deleteOutcomes : List (String × Bool)

def processChunk (oc : String → PushOutcome) (df : String → Bool)
    (dir : List String) : List String → ChunkResult
  | [] => ⟨[], dir, [], []⟩
  | c :: rest =>
    let s := sendToConnection oc df dir c
    let r := processChunk oc df s.dir rest
    ⟨some s.ok :: r.settled, r.dir, c :: r.attempts,
      s.deleteOutcomes ++ r.deleteOutcomes⟩

/-- The delivery counters of `broadcastToAll`. -/
structure BroadcastCounts where
  sent : Nat
  failed : Nat
  stale : Nat
deriving DecidableEq, Repr

/-- The `results.forEach` counting in `broadcastToAll`: fulfilled `true` →
`sent++`, fulfilled `false` → `stale++`, rejected → `failed++`. -/
def countSettled : List (Option Bool) → BroadcastCounts
  | [] => ⟨0, 0, 0⟩
  | r :: rs =>
    let c := countSettled rs
    match r with
    | some true => ⟨c.sent + 1, c.failed, c.stale⟩
    | some false => ⟨c.sent, c.failed, c.stale + 1⟩
    | none => ⟨c.sent, c.failed + 1, c.stale⟩

def addCounts (a b : BroadcastCounts) : BroadcastCounts :=
  ⟨a.sent + b.sent, a.failed + b.failed, a.stale + b.stale⟩

/-- Everything observable about one `broadcastToAll` run after the scan:
counters, final directory contents, push attempts in order, settled chunk
results, and the trace of stale-delete attempts. -/
structure BroadcastRun where
  counts : BroadcastCounts
  finalDir : List String
  attempts : List String
  settled : List (Option Bool)
  deleteOutcomes : List (String × Bool)

/-- The chunked send loop of `broadcastToAll`, over the already-scanned
connection list split into chunks, acting on the table contents `dir`. -/
def broadcastChunks (oc : String → PushOutcome) (df : String → Bool)
    (dir : List String) : List (List String) → BroadcastRun
  | [] => ⟨⟨0, 0, 0⟩, dir, [], [], []⟩
  | ch :: rest =>
    let r := processChunk oc df dir ch
    let c := countSettled r.settled
    let rr := broadcastChunks oc df r.dir rest
    ⟨addCounts c rr.counts, rr.finalDir, r.attempts ++ rr.attempts,
      r.settled ++ rr.settled, r.deleteOutcomes ++ rr.deleteOutcomes⟩

/-- `BroadcastService.broadcastToAll`: scan the whole table, then push the
message to every scanned connection in chunks of 50.  A scan failure throws
out of the method before any push (`none`); push and cleanup errors are all
absorbed by `sendToConnection`.  Also reports the number of scan calls. -/
def broadcastToAll (st : Store) : Option BroadcastRun × Nat :=
  let s := getAllConnections st
  match s.1 with
  | none => (none, s.2)
  | some connections =>
    (some (broadcastChunks st.outcome st.deleteFails st.pages.flatten
      (chunksOf connections)), s.2)

/-- The parsing stage of the broadcast HTTP handler's `event.body`:
absent/empty body, a body `JSON.parse` rejects (400 before any directory
access), or the parsed JSON value. -/
inductive HandlerBody where
  | missing
  | invalidJson
  | parsed (rb : Jsv)

/-- Observable result of the broadcast HTTP handler: HTTP status, response
`message`, the echoed statistics (`totalConnections` paired with the raw
counters) on success, number of `ScanCommand` calls, pushes attempted,
stale-delete trace, and the directory contents afterwards. -/
structure HandlerResult where
  status : Nat
  message : String
  results : Option (Nat × BroadcastCounts) := none
  scans : Nat := 0
  pushes : List String := []
  deleteOutcomes : List (String × Bool) := []
  finalDir : List String

/-- The `handler` of `broadcast.ts` (environment assumed configured): reject
a missing body and unparseable JSON with 400; evaluate
`!requestBody.type || !requestBody.data` (a TypeError from property access
on a `null` body lands in the outer catch as 500 "Broadcast failed");
otherwise run `broadcastToAll` and answer 200 with
`totalConnections = sent + failed + stale`; a storage error from the scan
lands in the outer catch as 500 "Broadcast failed". -/
def handler (st : Store) (body : HandlerBody) : HandlerResult :=
  match body with
  | .missing =>
    { status := 400, message := "Missing request body", finalDir := st.pages.flatten }
  | .invalidJson =>
    { status := 400, message := "Invalid JSON in request body", finalDir := st.pages.flatten }
  | .parsed rb =>
    match jsField rb "type" with
    | none => { status := 500, message := "Broadcast failed", finalDir := st.pages.flatten }
    | some t =>
      if !t.truthy then
        { status := 400, message := "Missing required fields: type, data",
          finalDir := st.pages.flatten }
      else
        match jsField rb "data" with
        | none => { status := 500, message := "Broadcast failed", finalDir := st.pages.flatten }
        | some d =>
          if !d.truthy then
            { status := 400, message := "Missing required fields: type, data",
              finalDir := st.pages.flatten }
          else
            let r := broadcastToAll st
            match r.1 with
            | none =>
              { status := 500, message := "Broadcast failed", scans := r.2,
                finalDir := st.pages.flatten }
            | some run =>
              { status := 200, message := "Broadcast completed",
                results := some (run.counts.sent + run.counts.failed + run.counts.stale,
                  run.counts),
                scans := r.2, pushes := run.attempts,
                deleteOutcomes := run.deleteOutcomes, finalDir := run.finalDir }

/-- The raw `event.body` of the Default (inbound) WebSocket handler,
partitioned by how `JSON.parse(event.body || '{}')` treats it: absent
(`null`/`undefined`), the empty string (falsy, so replaced by `'{}'`), a
present non-empty body that `JSON.parse` rejects, or a well-formed body
parsing to the given value. -/
inductive RawBody where
  | missing
  | emptyStr
  | malformed
  | wellFormed (v : Jsv)

/-- The echo envelope the Default handler pushes back
(`WebSocketMessage` of `shared/types`: type, data, timestamp). -/
structure EchoEnvelope where
  msgType : String
  data : Jsv
  timestamp : String

/-- Observable result of the Default handler: HTTP status, response
`message`, and the echo pushes attempted (connection id, envelope). -/
structure DefaultResult where
  status : Nat
  message : String
  attempts : List (String × EchoEnvelope)

/-- The `handler` of `default.ts` (environment assumed configured): require
a connection id; parse the body (`JSON.parse` throwing lands in the catch as
500 "Failed to process message" before any push); build the
`echo` envelope wrapping the parsed payload and the connection id; push it
back to the same connection (`pushFails` = that push rejects, landing in the
same catch); otherwise answer 200 "Message processed". -/
def defaultHandler (now : String) (cid : Option String) (body : RawBody)
    (pushFails : Bool) : DefaultResult :=
  match cid with
  | none => ⟨400, "Missing connection ID", []⟩
  | some c =>
    let parsed : Option Jsv :=
      match body with
      | .missing => some (.obj [])
      | .emptyStr => some (.obj [])
      | .malformed => none
      | .wellFormed v => some v
    match parsed with
    | none => ⟨500, "Failed to process message", []⟩
    | some original =>
      let resp : EchoEnvelope :=
        ⟨"echo",
          .obj [("message", .str "Message received"), ("original", original),
            ("connectionId", .str c)], now⟩
      if pushFails then ⟨500, "Failed to process message", [(c, resp)]⟩
      else ⟨200, "Message processed", [(c, resp)]⟩

/-- The `BroadcastRequestBody` of `src/unnamed/part_009` after destructuring:
required `type` and `data`, optional `version`, `id`, `source`, `meta`
(`none` = absent or `null`, the cases `??` falls through on). -/
structure RequestV2 where
  msgType : String
  version : Option String := none
  id : Option String := none
  source : Option String := none
  meta : Option Jsv := none
  data : Jsv

/-- The `WebSocketMessage` envelope of `src/unnamed/part_009`. -/
structure EnvelopeV2 where
  msgType : String
  version : String
  id : String
  timestamp : String
  source : String
  data : Jsv
  meta : Option Jsv

/-- The message construction of `broadcastToAll` in `src/unnamed/part_009`:
`version: version ?? '1'`, `id: id ?? randomUUID()`,
`timestamp: new Date().toISOString()`, `source: source ?? 'backend'`,
`data` and `meta` passed through.  `randomUUID()` is modelled by the
per-call fresh value `freshId`; distinct calls draw distinct values. -/
def buildMessageV2 (freshId now : String) (rb : RequestV2) : EnvelopeV2 :=
  ⟨rb.msgType, rb.version.getD "1", rb.id.getD freshId, now,
    rb.source.getD "backend", rb.data, rb.meta⟩

/-- The fan-out of `broadcastToAll` in `src/unnamed/part_009`: a single
`ScanCommand` (no pagination loop, so only the first page is read), one
envelope built once, and `JSON.stringify(message)` pushed verbatim to every
scanned connection.  Returns the envelope and the pushes issued. -/
def part009Broadcast (freshId now : String) (rb : RequestV2)
    (pages : List (List String)) : EnvelopeV2 × List (String × EnvelopeV2) :=
  let connections := pages.headD []
  let message := buildMessageV2 freshId now rb
  (message, connections.map (fun c => (c, message)))

/-- The `event.body` stages of the part_009 broadcast endpoint: absent body
(rejected 400 before any parse), a body `JSON.parse` throws on (landing in
the catch), or the parsed and destructured request. -/
inductive Part009Body where
  | missing
  | invalidJson
  | parsed (rb : RequestV2)

/-- Observable result of the part_009 broadcast endpoint: HTTP status,
response `message`, number of `ScanCommand` calls, pushes issued, directory
contents afterwards, and the `connectionCount` reported on success. -/
structure Part009Run where
  status : Nat
  message : String
  scans : Nat
  pushes : List (String × EnvelopeV2)
  finalDir : List String
  connectionCount : Option Nat

/-- The `broadcastToAll` handler of `src/unnamed/part_009` (table name
assumed configured): after parsing, the destructured fields go straight into
the message — there is no `type`/`data` validation between the parse and the
`ScanCommand`; the scan is a single call that never follows
`LastEvaluatedKey`, so only the first storage page is read; the stringified
message is pushed to every scanned connection; in the 410 branch the
`DeleteCommand` is not guarded by a try of its own, so a throwing delete
rejects that promise and `Promise.all` lands the handler in the catch
(500 "Broadcast failed") after the successful deletes have applied; a clean
run answers 200 "Broadcast completed" with `connectionCount` = number of
scanned connections. -/
def part009Handler (freshId now : String) (body : Part009Body)
    (oc : String → PushOutcome) (df : String → Bool)
    (pages : List (List String)) : Part009Run :=
  match body with
  | .missing => ⟨400, "Missing request body", 0, [], pages.flatten, none⟩
  | .invalidJson => ⟨500, "Broadcast failed", 0, [], pages.flatten, none⟩
  | .parsed rb =>
    let connections := pages.headD []
    let msg := buildMessageV2 freshId now rb
    let pushes := connections.map (fun c => (c, msg))
    let dir1 := pages.flatten.filter
      (fun x => !(connections.contains x && decide (oc x = .gone) && !df x))
    if connections.any (fun c => decide (oc c = .gone) && df c) then
      ⟨500, "Broadcast failed", 1, pushes, dir1, none⟩
    else
      ⟨200, "Broadcast completed", 1, pushes, dir1, some connections.length⟩

/-- The `WebSocketMessage` the aws-sam broadcast handler builds from the
destructured `type` and `data` (broadcast.ts lines 35-39) and pushes to
every connection: exactly the keys `type`, `data`, `timestamp` — the
envelope type of `shared/types` has no `id` or `source` field, and the
request's `id`/`source`/`meta`, if supplied, never enter the
construction. -/
def awsSamBroadcastMessage (now : String) (t d : Jsv) : Jsv :=
  .obj [("type", t), ("data", d), ("timestamp", .str now)]

/-- Boolean a push outcome fulfills with: `true` exactly for a delivery. -/
def okOf : PushOutcome → Bool
  | .delivered => true
  | .gone => false
  | .transient => false

theorem scanLoop_none_fst : ∀ (idx : Nat) (pages : List (List String)),
    (scanLoop none idx pages).1 = some pages.flatten
  | _, [] => by simp [scanLoop]
  | _, [p] => by simp [scanLoop]
  | idx, p :: q :: rest => by
    have ih := scanLoop_none_fst (idx + 1) (q :: rest)
    simp [scanLoop, ih]

theorem sendToConnection_ok (oc : String → PushOutcome) (df : String → Bool)
    (dir : List String) (cid : String) :
    (sendToConnection oc df dir cid).ok = okOf (oc cid) := by
  cases h : oc cid <;> simp [sendToConnection, h, okOf]

theorem sendToConnection_dir_mem (oc : String → PushOutcome) (df : String → Bool)
    (dir : List String) (cid x : String) :
    x ∈ (sendToConnection oc df dir cid).dir ↔
      x ∈ dir ∧ ¬(x = cid ∧ oc cid = .gone ∧ df cid = false) := by
  cases h : oc cid with
  | delivered => simp [sendToConnection, h]
  | transient => simp [sendToConnection, h]
  | gone =>
    cases hdf : df cid with
    | false =>
      simp [sendToConnection, h, removeStaleConnection, hdf, List.mem_filter]
    | true => simp [sendToConnection, h, removeStaleConnection, hdf]

theorem processChunk_settled (oc : String → PushOutcome) (df : String → Bool) :
    ∀ (dir ch : List String),
      (processChunk oc df dir ch).settled = ch.map (fun c => some (okOf (oc c)))
  | _, [] => rfl
  | dir, c :: rest => by
    have ih := processChunk_settled oc df ((sendToConnection oc df dir c).dir) rest
    simp [processChunk, ih, sendToConnection_ok]

theorem processChunk_attempts (oc : String → PushOutcome) (df : String → Bool) :
    ∀ (dir ch : List String), (processChunk oc df dir ch).attempts = ch
  | _, [] => rfl
  | dir, c :: rest => by
    have ih := processChunk_attempts oc df ((sendToConnection oc df dir c).dir) rest
    simp [processChunk, ih]

theorem processChunk_dir_mem (oc : String → PushOutcome) (df : String → Bool) :
    ∀ (dir ch : List String) (x : String),
      x ∈ (processChunk oc df dir ch).dir ↔
        x ∈ dir ∧ ¬(x ∈ ch ∧ oc x = .gone ∧ df x = false)
  | _, [], x => by simp [processChunk]
  | dir, c :: rest, x => by
    have ih := processChunk_dir_mem oc df ((sendToConnection oc df dir c).dir) rest x
    have hsend := sendToConnection_dir_mem oc df dir c x
    rw [processChunk]
    simp only [List.mem_cons]
    rw [ih, hsend]
    by_cases hx : x = c
    · subst hx; tauto
    · simp only [hx]; tauto

theorem countSettled_map (d : String → Bool) : ∀ (l : List String),
    countSettled (l.map (fun c => some (d c))) =
      ⟨l.countP (fun c => d c), 0, l.countP (fun c => !d c)⟩
  | [] => by simp [countSettled]
  | c :: rest => by
    have ih := countSettled_map d rest
    cases h : d c <;>
      simp [countSettled, ih, List.countP_cons, h]

theorem broadcastChunks_settled (oc : String → PushOutcome) (df : String → Bool) :
    ∀ (dir : List String) (chunks : List (List String)),
      (broadcastChunks oc df dir chunks).settled =
        chunks.flatten.map (fun c => some (okOf (oc c)))
  | _, [] => by simp [broadcastChunks]
  | dir, ch :: rest => by
    have ih := broadcastChunks_settled oc df ((processChunk oc df dir ch).dir) rest
    simp [broadcastChunks, ih, processChunk_settled]

theorem broadcastChunks_attempts (oc : String → PushOutcome) (df : String → Bool) :
    ∀ (dir : List String) (chunks : List (List String)),
      (broadcastChunks oc df dir chunks).attempts = chunks.flatten
  | _, [] => by simp [broadcastChunks]
  | dir, ch :: rest => by
    have ih := broadcastChunks_attempts oc df ((processChunk oc df dir ch).dir) rest
    simp [broadcastChunks, ih, processChunk_attempts]

theorem broadcastChunks_counts (oc : String → PushOutcome) (df : String → Bool) :
    ∀ (dir : List String) (chunks : List (List String)),
      (broadcastChunks oc df dir chunks).counts =
        ⟨chunks.flatten.countP (fun c => okOf (oc c)), 0,
          chunks.flatten.countP (fun c => !okOf (oc c))⟩
  | _, [] => by simp [broadcastChunks]
  | dir, ch :: rest => by
    have ih := broadcastChunks_counts oc df ((processChunk oc df dir ch).dir) rest
    simp [broadcastChunks, ih, processChunk_settled, countSettled_map, addCounts,
      List.countP_append]

theorem broadcastChunks_dir_mem (oc : String → PushOutcome) (df : String → Bool) :
    ∀ (dir : List String) (chunks : List (List String)) (x : String),
      x ∈ (broadcastChunks oc df dir chunks).finalDir ↔
        x ∈ dir ∧ ¬(x ∈ chunks.flatten ∧ oc x = .gone ∧ df x = false)
  | _, [], x => by simp [broadcastChunks]
  | dir, ch :: rest, x => by
    have ih := broadcastChunks_dir_mem oc df ((processChunk oc df dir ch).dir) rest x
    have hch := processChunk_dir_mem oc df dir ch x
    simp only [broadcastChunks, List.flatten_cons, List.mem_append]
    rw [ih, hch]
    tauto

theorem chunksOfAux_flatten : ∀ (fuel : Nat) (xs : List String),
    xs.length ≤ fuel → (chunksOfAux fuel xs).flatten = xs
  | 0, xs, h => by
    have : xs = [] := List.length_eq_zero.mp (Nat.le_zero.mp h)
    simp [this, chunksOfAux]
  | _ + 1, [], _ => by simp [chunksOfAux]
  | fuel + 1, x :: xs, h => by
    have hlen : ((x :: xs).drop 50).length ≤ fuel := by
      simp only [List.length_drop, List.length_cons]
      simp only [List.length_cons] at h
      omega
    have ih := chunksOfAux_flatten fuel ((x :: xs).drop 50) hlen
    simp only [chunksOfAux, List.flatten_cons, ih, List.take_append_drop]

theorem chunksOf_flatten (xs : List String) : (chunksOf xs).flatten = xs :=
  chunksOfAux_flatten xs.length xs (Nat.le_refl _)

theorem broadcastToAll_healthy (pages : List (List String))
    (oc : String → PushOutcome) (df : String → Bool) :
    (broadcastToAll ⟨pages, none, oc, df⟩).1 =
      some (broadcastChunks oc df pages.flatten (chunksOf pages.flatten)) := by
  simp [broadcastToAll, getAllConnections, scanLoop_none_fst]

theorem handler_ok (pages : List (List String)) (oc : String → PushOutcome)
    (df : String → Bool) (fs : List (String × Jsv))
    (ht : (lookupField fs "type").truthy = true)
    (hd : (lookupField fs "data").truthy = true) :
    handler ⟨pages, none, oc, df⟩ (.parsed (.obj fs)) =
      { status := 200, message := "Broadcast completed",
        results := some
          ((broadcastChunks oc df pages.flatten (chunksOf pages.flatten)).counts.sent +
            (broadcastChunks oc df pages.flatten (chunksOf pages.flatten)).counts.failed +
            (broadcastChunks oc df pages.flatten (chunksOf pages.flatten)).counts.stale,
          (broadcastChunks oc df pages.flatten (chunksOf pages.flatten)).counts),
        scans := (scanLoop none 0 pages).2,
        pushes := (broadcastChunks oc df pages.flatten (chunksOf pages.flatten)).attempts,
        deleteOutcomes :=
          (broadcastChunks oc df pages.flatten (chunksOf pages.flatten)).deleteOutcomes,
        finalDir := (broadcastChunks oc df pages.flatten (chunksOf pages.flatten)).finalDir } := by
  simp [handler, jsField, ht, hd, broadcastToAll, getAllConnections, scanLoop_none_fst]

theorem scanLoop_fail : ∀ (idx i : Nat) (pages : List (List String)),
    idx ≤ i → (i < idx + pages.length ∨ (pages = [] ∧ i = idx)) →
    (scanLoop (some i) idx pages).1 = none
  | idx, i, [], hle, h => by
    have : i = idx := by
      rcases h with h | h
      · simp only [List.length_nil] at h; omega
      · exact h.2
    simp [scanLoop, this]
  | idx, i, [p], hle, h => by
    have : i = idx := by
      rcases h with h | h
      · simp only [List.length_cons, List.length_nil] at h; omega
      · exact absurd h.1 (by simp)
    simp [scanLoop, this]
  | idx, i, p :: q :: rest, hle, h => by
    by_cases hi : i = idx
    · simp [scanLoop, hi]
    · have hlt : i < idx + (p :: q :: rest).length := by
        rcases h with h | h
        · exact h
        · exact absurd h.1 (by simp)
      have ih := scanLoop_fail (idx + 1) i (q :: rest)
        (by omega)
        (Or.inl (by simp only [List.length_cons] at hlt ⊢; omega))
      simp [scanLoop, Option.some.injEq, hi, ih]

theorem handler_scanfail (pages : List (List String)) (oc : String → PushOutcome)
    (df : String → Bool) (fs : List (String × Jsv)) (i : Nat)
    (ht : (lookupField fs "type").truthy = true)
    (hd : (lookupField fs "data").truthy = true)
    (hr : i < pages.length ∨ (pages = [] ∧ i = 0)) :
    handler ⟨pages, some i, oc, df⟩ (.parsed (.obj fs)) =
      { status := 500, message := "Broadcast failed",
        scans := (scanLoop (some i) 0 pages).2, finalDir := pages.flatten } := by
  have hnone : (scanLoop (some i) 0 pages).1 = none :=
    scanLoop_fail 0 i pages (Nat.zero_le i) (by simpa using hr)
  simp [handler, jsField, ht, hd, broadcastToAll, getAllConnections, hnone]

/-- Claim C1: the claim states a transient (non-410) push failure leaves the
connection's directory record in place and is tallied in `failed`, not
`stale`.  Evaluating the code at the failing input — a directory holding
only `c1` and a transient push error for `c1` — shows the record is indeed
preserved (`c1` still present) but the connection is tallied in `stale`
(reported to the caller as `staleRemoved`), with `failed = 0`:
`sendToConnection` fulfills with `false` for every caught error, and
`broadcastToAll` counts every fulfilled `false` as stale. -/
theorem c1_transient_eval :
    (broadcastToAll ⟨[["c1"]], none, fun _ => .transient, fun _ => false⟩).1.map
      (fun r => (r.finalDir.contains "c1", r.counts)) =
      some (true, ⟨0, 0, 1⟩) := rfl

/-- Claim C2 (counterexample): a connection whose push fails with HTTP 410
but whose `DeleteCommand` throws is still present in the directory after
the broadcast (the delete failure is swallowed by
`removeStaleConnection`'s catch), refuting the claimed post-broadcast
absence; it is nevertheless tallied in `stale`. -/
theorem c2_counterexample :
    (broadcastToAll ⟨[["c1"]], none, fun _ => .gone, fun _ => true⟩).1.map
      (fun r => (r.finalDir.contains "c1", r.counts.stale, r.deleteOutcomes)) =
      some (true, 1, [("c1", true)]) := rfl

/-- Claim C2 (amended): for every broadcast and every connection whose push
fails with the transport's confirmed-gone signal (HTTP 410), when the
opportunistic directory delete succeeds the post-broadcast lookup of the
connection is absent, and in `stale` the connection is counted exactly once
(the tally equals the undelivered count of the remaining connections plus
one, and the connection is not among the remaining ones). -/
theorem c2_gone_reaped (pages : List (List String)) (oc : String → PushOutcome)
    (df : String → Bool) (cid : String)
    (hmem : cid ∈ pages.flatten) (hgone : oc cid = .gone)
    (hdel : df cid = false) (hnd : pages.flatten.Nodup) :
    ∀ run, (broadcastToAll ⟨pages, none, oc, df⟩).1 = some run →
      cid ∉ run.finalDir ∧
      run.counts.stale =
        (pages.flatten.erase cid).countP (fun c => !okOf (oc c)) + 1 ∧
      cid ∉ pages.flatten.erase cid := by
  intro run hrun
  rw [broadcastToAll_healthy] at hrun
  have hrun' : run = broadcastChunks oc df pages.flatten (chunksOf pages.flatten) :=
    (Option.some.injEq _ _).mp hrun.symm
  subst hrun'
  refine ⟨?_, ?_, hnd.not_mem_erase⟩
  · rw [broadcastChunks_dir_mem]
    rw [chunksOf_flatten]
    intro hc
    exact hc.2 ⟨hmem, hgone, hdel⟩
  · rw [broadcastChunks_counts, chunksOf_flatten]
    have hperm : pages.flatten.Perm (cid :: pages.flatten.erase cid) :=
      List.perm_cons_erase hmem
    have := hperm.countP_eq (fun c => !okOf (oc c))
    rw [this]
    simp [List.countP_cons, hgone, okOf, Nat.add_comm]

/-- Claim C9: in the aws-sam broadcast engine every settled chunk result is
fulfilled (`sendToConnection` catches every push and cleanup error and
always fulfills with a boolean), so for every broadcast over a healthy scan,
whatever the per-connection transport outcomes and delete failures, the
`failed` counter is 0. -/
theorem c9_failed_always_zero (pages : List (List String))
    (oc : String → PushOutcome) (df : String → Bool) :
    ((broadcastToAll ⟨pages, none, oc, df⟩).1).map
      (fun r => (r.settled.all (fun s => s.isSome), r.counts.failed)) =
      some (true, 0) := by
  rw [broadcastToAll_healthy]
  simp [broadcastChunks_settled, broadcastChunks_counts, List.all_eq_true]

/-- Claim C6 (amended): for every state of the connection directory (any
partition of the records into storage pages, in particular more than one
page), the aws-sam engine's `getAllConnections` follows the pagination
continuation keys until exhausted and returns exactly all records of the
directory; the part_009 endpoint's single un-paginated `ScanCommand` reads
only the first page (its counterexample). -/
theorem c6_scan_returns_all (pages : List (List String))
    (oc : String → PushOutcome) (df : String → Bool) :
    (getAllConnections ⟨pages, none, oc, df⟩).1 = some pages.flatten := by
  simp [getAllConnections, scanLoop_none_fst]

theorem c2_gone_reaped_witness :
    "c1" ∉ (broadcastChunks
        (fun c => if c = "c1" then PushOutcome.gone else .delivered)
        (fun _ => false) ["c1", "c2"] (chunksOf ["c1", "c2"])).finalDir ∧
    (broadcastChunks
        (fun c => if c = "c1" then PushOutcome.gone else .delivered)
        (fun _ => false) ["c1", "c2"] (chunksOf ["c1", "c2"])).counts.stale =
      (["c1", "c2"].erase "c1").countP
        (fun c => !okOf (if c = "c1" then PushOutcome.gone else .delivered)) + 1 ∧
    "c1" ∉ ["c1", "c2"].erase "c1" :=
  c2_gone_reaped [["c1", "c2"]]
    (fun c => if c = "c1" then PushOutcome.gone else .delivered)
    (fun _ => false) "c1" (by decide) rfl rfl (by decide) _ rfl

/-- Claim C3: for every broadcast over a scanned connection set of size N —
any page layout (hence any number of chunks) and any mix of per-connection
outcomes — exactly one push attempt is issued per scanned connection (the
attempt trace equals the scanned list), the counters satisfy
`sent + failed + stale = N`, and the `totalConnections` the handler reports
for a valid request is that same N; for an empty directory all of this
degenerates to zero counters and no transport calls. -/
theorem c3_full_coverage (pages : List (List String)) (oc : String → PushOutcome)
    (df : String → Bool) (fs : List (String × Jsv))
    (ht : (lookupField fs "type").truthy = true)
    (hd : (lookupField fs "data").truthy = true) :
    ((broadcastToAll ⟨pages, none, oc, df⟩).1).map
        (fun r => (r.attempts, r.counts.sent + r.counts.failed + r.counts.stale)) =
      some (pages.flatten, pages.flatten.length) ∧
    (handler ⟨pages, none, oc, df⟩ (.parsed (.obj fs))).results.map Prod.fst =
      some pages.flatten.length := by
  have hsum : pages.flatten.countP (fun c => okOf (oc c)) +
      pages.flatten.countP (fun c => !okOf (oc c)) = pages.flatten.length := by
    have := List.length_eq_countP_add_countP (fun c => okOf (oc c)) pages.flatten
    simpa using this.symm
  constructor
  · rw [broadcastToAll_healthy]
    simp only [Option.map_some', broadcastChunks_attempts, broadcastChunks_counts,
      chunksOf_flatten, Option.some.injEq, Prod.mk.injEq]
    exact ⟨trivial, by omega⟩
  · rw [handler_ok pages oc df fs ht hd]
    simp only [broadcastChunks_counts, chunksOf_flatten, Option.map_some',
      Option.some.injEq]
    omega

theorem c3_full_coverage_witness :
    ((broadcastToAll ⟨[["a", "b"], ["c"]], none,
        (fun c => if c = "a" then PushOutcome.delivered
          else if c = "b" then .gone else .transient), fun _ => false⟩).1).map
        (fun r => (r.attempts, r.counts.sent + r.counts.failed + r.counts.stale)) =
      some (["a", "b", "c"], 3) ∧
    (handler ⟨[["a", "b"], ["c"]], none,
        (fun c => if c = "a" then PushOutcome.delivered
          else if c = "b" then .gone else .transient), fun _ => false⟩
      (.parsed (.obj [("type", .str "comment.created"), ("data", .obj [])]))).results.map
        Prod.fst = some 3 :=
  c3_full_coverage [["a", "b"], ["c"]]
    (fun c => if c = "a" then PushOutcome.delivered
      else if c = "b" then .gone else .transient)
    (fun _ => false) [("type", .str "comment.created"), ("data", .obj [])] rfl rfl

/-- Claim C4 (amended): in the aws-sam broadcast entry point, a
BroadcastRequest whose `type` or `data` field is missing is rejected with
the 400 "Missing required fields" response, with zero `ScanCommand` reads,
zero pushes, zero delete attempts, and the connection directory untouched;
the part_009 endpoint performs no such validation (its counterexample
scans and pushes on a missing `data`). -/
theorem c4_validation_no_effects (st : Store) (fs : List (String × Jsv))
    (h : lookupField fs "type" = .undefined ∨ lookupField fs "data" = .undefined) :
    handler st (.parsed (.obj fs)) =
      { status := 400, message := "Missing required fields: type, data",
        results := none, scans := 0, pushes := [], deleteOutcomes := [],
        finalDir := st.pages.flatten } := by
  rcases h with h | h
  · simp [handler, jsField, h, Jsv.truthy]
  · by_cases ht : (lookupField fs "type").truthy
    · simp [handler, jsField, h, ht, Jsv.truthy]
    · simp only [Bool.not_eq_true] at ht
      simp [handler, jsField, ht]

theorem c4_validation_no_effects_witness :
    handler ⟨[["c1"]], none, fun _ => PushOutcome.delivered, fun _ => false⟩
      (.parsed (.obj [("type", Jsv.str "comment.created")])) =
      { status := 400, message := "Missing required fields: type, data",
        results := none, scans := 0, pushes := [], deleteOutcomes := [],
        finalDir := ["c1"] } :=
  c4_validation_no_effects _ _ (Or.inr rfl)

/-- Claim C10: the broadcast entry point's validation is JavaScript
truthiness, not presence: the 400 "Missing required fields" rejection
happens exactly when `type` or `data` evaluates falsy — so `data` present
but `null`, `0`, `""` or `false`, or `type` the empty string, are rejected,
while any truthy value (e.g. `{}` for `data`) passes. -/
theorem c10_truthiness_gate :
    (∀ (st : Store) (fs : List (String × Jsv)),
      ((handler st (.parsed (.obj fs))).status = 400 ∧
        (handler st (.parsed (.obj fs))).message =
          "Missing required fields: type, data") ↔
      ((lookupField fs "type").truthy = false ∨
        (lookupField fs "data").truthy = false)) ∧
    Jsv.truthy .null = false ∧ Jsv.truthy (.num 0) = false ∧
    Jsv.truthy (.str "") = false ∧ Jsv.truthy (.bool false) = false ∧
    Jsv.truthy .undefined = false ∧ Jsv.truthy (.obj []) = true := by
  refine ⟨fun st fs => ?_, by decide, by decide, by decide, by decide, by decide, by decide⟩
  by_cases ht : (lookupField fs "type").truthy
  · by_cases hd : (lookupField fs "data").truthy
    · cases hbc : (broadcastToAll st).1 <;> simp [handler, jsField, ht, hd, hbc]
    · simp only [Bool.not_eq_true] at hd
      simp [handler, jsField, ht, hd]
  · simp only [Bool.not_eq_true] at ht
    simp [handler, jsField, ht]

/-- Claim C5 (amended): in the `part_009` broadcast endpoint (the only
implementation of the envelope-defaulting rules), a valid request omitting
`id` yields an envelope carrying the per-call freshly generated identifier
— distinct across calls because distinct calls draw distinct fresh values —
a request omitting `source` yields the fixed constant "backend",
caller-supplied `id`/`source` are used verbatim, and every recipient is
pushed exactly the constructed envelope; the aws-sam broadcast handler
instead pushes a `type`/`data`/`timestamp` envelope with no `id` or
`source` at all (its counterexample). -/
theorem c5_envelope_defaults (f1 f2 now1 now2 : String) (rb1 rb2 : RequestV2)
    (pages1 pages2 : List (List String))
    (h1 : rb1.id = none) (h2 : rb2.id = none) (hf : f1 ≠ f2) :
    (part009Broadcast f1 now1 rb1 pages1).1.id = f1 ∧
    (part009Broadcast f1 now1 rb1 pages1).1.id ≠
      (part009Broadcast f2 now2 rb2 pages2).1.id ∧
    (rb1.source = none → (part009Broadcast f1 now1 rb1 pages1).1.source = "backend") ∧
    (∀ (rb : RequestV2) (f now i : String), rb.id = some i →
      (part009Broadcast f now rb pages1).1.id = i) ∧
    (∀ (rb : RequestV2) (f now s : String), rb.source = some s →
      (part009Broadcast f now rb pages1).1.source = s) ∧
    (∀ p ∈ (part009Broadcast f1 now1 rb1 pages1).2,
      p.2 = (part009Broadcast f1 now1 rb1 pages1).1) := by
  refine ⟨?_, ?_, ?_, ?_, ?_, ?_⟩
  · simp [part009Broadcast, buildMessageV2, h1]
  · simp only [part009Broadcast, buildMessageV2, h1, h2, Option.getD_none]
    exact hf
  · intro hs
    simp [part009Broadcast, buildMessageV2, hs]
  · intro rb f now i hi
    simp [part009Broadcast, buildMessageV2, hi]
  · intro rb f now s hs
    simp [part009Broadcast, buildMessageV2, hs]
  · intro p hp
    simp only [part009Broadcast, List.mem_map] at hp
    obtain ⟨c, _, hpe⟩ := hp
    rw [← hpe]
    rfl

theorem c5_envelope_defaults_witness :
    (part009Broadcast "uuid-1" "T1"
      ⟨"comment.created", none, none, none, none, Jsv.obj []⟩ [["c1"]]).1.id =
      "uuid-1" ∧
    (part009Broadcast "uuid-1" "T1"
      ⟨"comment.created", none, none, none, none, Jsv.obj []⟩ [["c1"]]).1.id ≠
      (part009Broadcast "uuid-2" "T2"
        ⟨"comment.created", none, none, none, none, Jsv.num 1⟩ [["c2"]]).1.id ∧
    ((⟨"comment.created", none, none, none, none, Jsv.obj []⟩ : RequestV2).source =
        none →
      (part009Broadcast "uuid-1" "T1"
        ⟨"comment.created", none, none, none, none, Jsv.obj []⟩ [["c1"]]).1.source =
        "backend") ∧
    (∀ (rb : RequestV2) (f now i : String), rb.id = some i →
      (part009Broadcast f now rb [["c1"]]).1.id = i) ∧
    (∀ (rb : RequestV2) (f now s : String), rb.source = some s →
      (part009Broadcast f now rb [["c1"]]).1.source = s) ∧
    (∀ p ∈ (part009Broadcast "uuid-1" "T1"
        ⟨"comment.created", none, none, none, none, Jsv.obj []⟩ [["c1"]]).2,
      p.2 = (part009Broadcast "uuid-1" "T1"
        ⟨"comment.created", none, none, none, none, Jsv.obj []⟩ [["c1"]]).1) :=
  c5_envelope_defaults "uuid-1" "uuid-2" "T1" "T2"
    ⟨"comment.created", none, none, none, none, Jsv.obj []⟩
    ⟨"comment.created", none, none, none, none, Jsv.num 1⟩
    [["c1"]] [["c2"]] rfl rfl (by decide)

/-- Claim C7 (counterexample): the Default handler receives a present but
malformed (non-JSON) body for connection `c9`: `JSON.parse` throws before
any push, the catch answers 500 "Failed to process message", and no echo
envelope is pushed — refuting the claimed empty-object fallback, echo and
200 for malformed bodies (even though the push itself would have
succeeded). -/
theorem c7_counterexample :
    defaultHandler "2024-01-01T00:00:00.000Z" (some "c9") .malformed false =
      ⟨500, "Failed to process message", []⟩ := rfl

/-- Claim C7 (amended): only a missing or empty raw body is treated as the
empty object — the handler then still pushes the `echo` envelope back to
the same connection and answers 200 (when the push succeeds), likewise for
a well-formed body with its parsed payload; a present malformed body
instead yields a 500 "Failed to process message" response with no echo
push attempted. -/
theorem c7_malformed_body (now c : String) (v : Jsv) (pf : Bool) :
    (defaultHandler now (some c) .missing false =
      ⟨200, "Message processed",
        [(c, ⟨"echo",
          .obj [("message", .str "Message received"), ("original", .obj []),
            ("connectionId", .str c)], now⟩)]⟩) ∧
    (defaultHandler now (some c) .emptyStr false =
      ⟨200, "Message processed",
        [(c, ⟨"echo",
          .obj [("message", .str "Message received"), ("original", .obj []),
            ("connectionId", .str c)], now⟩)]⟩) ∧
    (defaultHandler now (some c) .malformed pf =
      ⟨500, "Failed to process message", []⟩) ∧
    (defaultHandler now (some c) (.wellFormed v) false =
      ⟨200, "Message processed",
        [(c, ⟨"echo",
          .obj [("message", .str "Message received"), ("original", v),
            ("connectionId", .str c)], now⟩)]⟩) := by
  refine ⟨rfl, rfl, ?_, rfl⟩
  cases pf <;> rfl

/-- Claim C8 (counterexample): a broadcast in which the opportunistic
stale-record `DeleteCommand` for `c1` throws a storage error still answers
200 "Broadcast completed" (with the failure visible only in the delete
trace): the write failure is caught and logged inside
`removeStaleConnection`, not propagated as a 500 StorageError. -/
theorem c8_counterexample :
    handler ⟨[["c1"]], none, fun _ => .gone, fun _ => true⟩
      (.parsed (.obj [("type", .str "comment.created"), ("data", .obj [])])) =
      { status := 200, message := "Broadcast completed",
        results := some (1, ⟨0, 0, 1⟩), scans := 1, pushes := ["c1"],
        deleteOutcomes := [("c1", true)], finalDir := ["c1"] } := rfl

/-- Claim C8 (amended): a directory read failure during the broadcast's scan
propagates to the caller as the 500 "Broadcast failed" response with no
pushes attempted; but a write failure of the opportunistic stale-record
delete is swallowed (the broadcast still answers 200), whatever the
transport outcomes and delete failures. -/
theorem c8_storage_errors :
    (∀ (pages : List (List String)) (oc : String → PushOutcome)
        (df : String → Bool) (fs : List (String × Jsv)) (i : Nat),
      (lookupField fs "type").truthy = true →
      (lookupField fs "data").truthy = true →
      (i < pages.length ∨ (pages = [] ∧ i = 0)) →
      (handler ⟨pages, some i, oc, df⟩ (.parsed (.obj fs))).status = 500 ∧
      (handler ⟨pages, some i, oc, df⟩ (.parsed (.obj fs))).message =
        "Broadcast failed" ∧
      (handler ⟨pages, some i, oc, df⟩ (.parsed (.obj fs))).pushes = []) ∧
    (∀ (pages : List (List String)) (oc : String → PushOutcome)
        (df : String → Bool) (fs : List (String × Jsv)),
      (lookupField fs "type").truthy = true →
      (lookupField fs "data").truthy = true →
      (handler ⟨pages, none, oc, df⟩ (.parsed (.obj fs))).status = 200) := by
  constructor
  · intro pages oc df fs i ht hd hr
    rw [handler_scanfail pages oc df fs i ht hd hr]
    exact ⟨rfl, rfl, rfl⟩
  · intro pages oc df fs ht hd
    rw [handler_ok pages oc df fs ht hd]

theorem c8_storage_errors_witness :
    ((handler ⟨[["c1"], ["c2"]], some 1, fun _ => PushOutcome.delivered,
        fun _ => false⟩
      (.parsed (.obj [("type", .str "x"), ("data", .num 1)]))).status = 500 ∧
    (handler ⟨[["c1"], ["c2"]], some 1, fun _ => PushOutcome.delivered,
        fun _ => false⟩
      (.parsed (.obj [("type", .str "x"), ("data", .num 1)]))).message =
      "Broadcast failed" ∧
    (handler ⟨[["c1"], ["c2"]], some 1, fun _ => PushOutcome.delivered,
        fun _ => false⟩
      (.parsed (.obj [("type", .str "x"), ("data", .num 1)]))).pushes = []) ∧
    (handler ⟨[["c1"]], none, fun _ => PushOutcome.gone, fun _ => true⟩
      (.parsed (.obj [("type", .str "x"), ("data", .num 1)]))).status = 200 :=
  ⟨c8_storage_errors.1 [["c1"], ["c2"]] (fun _ => PushOutcome.delivered)
      (fun _ => false) [("type", .str "x"), ("data", .num 1)] 1 (by decide)
      (by decide) (Or.inl (by decide)),
    c8_storage_errors.2 [["c1"]] (fun _ => PushOutcome.gone) (fun _ => true)
      [("type", .str "x"), ("data", .num 1)] (by decide) (by decide)⟩

/-- Claim C4 (counterexample): the part_009 broadcast endpoint — a cited
source of the claim — performs no `type`/`data` validation: a parsed request
whose `data` is missing (destructuring to `undefined`) is not rejected; the
handler issues a directory scan, pushes an envelope with undefined `data`
to the scanned connection, and answers 200, refuting the claimed 400-class
error with zero directory reads and zero pushes. -/
theorem c4_counterexample :
    part009Handler "uuid-1" "T1"
      (.parsed ⟨"comment.created", none, none, none, none, .undefined⟩)
      (fun _ => .delivered) (fun _ => false) [["c1"]] =
      ⟨200, "Broadcast completed", 1,
        [("c1", ⟨"comment.created", "1", "uuid-1", "T1", "backend", .undefined,
          none⟩)],
        ["c1"], some 1⟩ := rfl

/-- Claim C5 (counterexample): the aws-sam broadcast handler — a cited
source of the claim — builds its pushed envelope from the destructured
`type` and `data` only: a request that supplies caller `id`/`source` yields
the very same envelope as one that omits them (the values are dropped), and
the envelope's `id` and `source` properties are `undefined` (no freshly
generated identifier, no "backend" constant), refuting the claim for that
entry point. -/
theorem c5_counterexample :
    awsSamBroadcastMessage "T"
        ((jsField (Jsv.obj [("type", .str "comment.created"), ("data", .obj []),
          ("id", .str "caller-id"), ("source", .str "caller-src")]) "type").getD
          .undefined)
        ((jsField (Jsv.obj [("type", .str "comment.created"), ("data", .obj []),
          ("id", .str "caller-id"), ("source", .str "caller-src")]) "data").getD
          .undefined) =
      awsSamBroadcastMessage "T"
        ((jsField (Jsv.obj [("type", .str "comment.created"),
          ("data", .obj [])]) "type").getD .undefined)
        ((jsField (Jsv.obj [("type", .str "comment.created"),
          ("data", .obj [])]) "data").getD .undefined) ∧
    jsField (awsSamBroadcastMessage "T" (.str "comment.created") (.obj [])) "id" =
      some .undefined ∧
    jsField (awsSamBroadcastMessage "T" (.str "comment.created") (.obj []))
      "source" = some .undefined := ⟨rfl, rfl, rfl⟩

/-- Claim C6 (counterexample): the part_009 broadcast endpoint — a cited
source of the claim — issues a single `ScanCommand` and never follows
`LastEvaluatedKey`: over a directory spanning two storage pages
({c1} and {c2}) it performs exactly one scan call and pushes only to `c1`,
although `c2` is a record currently in the directory, refuting the claimed
full enumeration across pages. -/
theorem c6_counterexample :
    (part009Handler "u" "T" (.parsed ⟨"t", none, none, none, none, .obj []⟩)
      (fun _ => .delivered) (fun _ => false) [["c1"], ["c2"]]).scans = 1 ∧
    (part009Handler "u" "T" (.parsed ⟨"t", none, none, none, none, .obj []⟩)
      (fun _ => .delivered) (fun _ => false) [["c1"], ["c2"]]).pushes.map
      Prod.fst = ["c1"] ∧
    "c2" ∈ [["c1"], ["c2"]].flatten := ⟨rfl, rfl, by decide⟩
